import Mathlib

/-!
Verification of mini_OS.cpp: task queue, shared-memory handoff and controller loop

A shallow embedding of `src/mini_OS.cpp`.

* `int` values are carried as `Int`; the results of `+`, `-`, `*` are reduced
  to the 32-bit two's complement range by `wrap32`. The remainder `INT_MIN % -1`,
  whose quotient has no `int` value, is a fault of the process (`intRem`).
* A process either goes on or stops (`exit`, or a signal): functions that can
  stop the process return `Except (Halt × World) _`.
* Everything a process can observe or change outside its own memory is the
  `World`: the System V segment with key `SHM_KEY` and the terminal trace.
  Between two commands no process is attached to the segment, so `IPC_RMID`
  removes it at once.
* What the kernel and the clock answer is an explicit input (`Env`).
* A queued closure is a function of the world: it returns or stops the process.
  Closures that never return, or that reach back into the task manager that
  runs them, are outside this type.
* The operator's input is taken as already parsed numbers (`Command`).
* The decimal rendering of a `double` is not represented (`Event.outQuot`).
* The mutex of `TaskManager` is not represented: every run here is sequential.
-/

namespace MiniOS

/-! ## Constants -/

def SHM_KEY : Nat := 1234
def SHM_SIZE : Nat := 1024

def TASK_ADDITION : Int := 1
def TASK_SUBTRACTION : Int := 2
def TASK_MULTIPLICATION : Int := 3
def TASK_DIVISION : Int := 4
def TASK_MODULUS : Int := 5

def EXIT_SUCCESS : Int := 0
def EXIT_FAILURE : Int := 1

/-- Signal number of the arithmetic fault (`SIGFPE`). -/
def SIGFPE : Nat := 8

/-- Smallest value of a 32-bit `int`. -/
def INT_MIN : Int := -2147483648

/-- Number of `steady_clock` ticks (nanoseconds) in one millisecond. -/
def ticksPerMs : Int := 1000000

/-! ## World -/

/-- One observable effect of a process. -/
inductive Event where
  /-- Text written to `std::cout`. -/
  | out (text : String)
  /-- Text written to `std::cout` followed by the `double` quotient `num / den`
  (the decimal rendering of a `double` is not represented). -/
  | outQuot (text : String) (num den : Int)
  /-- Text written to `std::cerr`. -/
  | err (text : String)
  /-- A call of `sleep_for` with the given number of milliseconds. -/
  | sleep (ms : Nat)
deriving DecidableEq, Repr

abbrev Trace := List Event

/-- The segment registered under `SHM_KEY`: `none` when no such segment exists,
otherwise its contents read as an array of `int` (index to value). -/
abbrev Shm := Option (Nat → Int)

structure World where
  shm : Shm
  trace : Trace

/-- How a process ended. -/
inductive Halt where
  | exited (status : Int)
  | killed (signal : Nat)
deriving DecidableEq, Repr

/-- A computation of a process: it stops the process or yields a value. -/
abbrev Proc (α : Type) := Except (Halt × World) α

/-- A queued closure `std::function<void()>`. -/
abbrev Task := World → Proc World

def World.print (w : World) (text : String) : World :=
  { w with trace := w.trace ++ [Event.out text] }

def World.printErr (w : World) (text : String) : World :=
  { w with trace := w.trace ++ [Event.err text] }

def World.emit (w : World) (e : Event) : World :=
  { w with trace := w.trace ++ [e] }

/-- The call `exit(status)`. -/
def exitWith {α : Type} (status : Int) (w : World) : Proc α :=
  Except.error (Halt.exited status, w)

/-! ## TaskManager -/

structure TaskManager where
  /-- The queue, front first. -/
  tasks : List Task
  deadlockTimeout : Int
  processing : Bool

/-- The constructor `TaskManager()`. -/
def TaskManager.new : TaskManager :=
  { tasks := [], deadlockTimeout := 1000, processing := false }

def TaskManager.setDeadlockTimeout (tm : TaskManager) (timeoutMs : Int) : TaskManager :=
  { tm with deadlockTimeout := timeoutMs }

def TaskManager.addTask (tm : TaskManager) (task : Task) : TaskManager :=
  { tm with tasks := tm.tasks ++ [task] }

def TaskManager.isProcessing (tm : TaskManager) : Bool :=
  tm.processing

/-- The loop `while (!tasks.empty()) tasks.pop();`. -/
def clearLoop : List Task → List Task
  | [] => []
  | _ :: rest => clearLoop rest

def TaskManager.clearTasks (tm : TaskManager) : TaskManager :=
  { tm with tasks := clearLoop tm.tasks }

/-- The text of the stall diagnostic. -/
def stallMessage : String :=
  "Potential deadlock detected! Task took longer than the specified timeout."

/-- The value of `duration_cast<milliseconds>(end - start).count()`. -/
def durationMs (start stop : Int) : Int :=
  (stop - start).tdiv ticksPerMs

/-- State of the loop of `processTasks` when it is left. `ran` lists the closures
that were invoked and returned, in order; `reads` counts the clock readings taken. -/
structure LoopEnd where
  tasks : List Task
  world : World
  ran : List Task
  reads : Nat

/-- The `while` loop of `processTasks`. `clock n` is what the `n`-th call of
`steady_clock::now()` returns. -/
def processLoop (deadlockTimeout : Int) (clock : Nat → Int) :
    List Task → Nat → World → List Task → Proc LoopEnd
  | [], reads, w, ran => Except.ok { tasks := [], world := w, ran := ran, reads := reads }
  | task :: rest, reads, w, ran =>
    let start := clock reads
    match task w with
    | Except.error stop => Except.error stop
    | Except.ok w1 =>
      let stop := clock (reads + 1)
      if durationMs start stop > deadlockTimeout then
        Except.ok { tasks := rest, world := w1.print stallMessage,
                    ran := ran ++ [task], reads := reads + 2 }
      else
        processLoop deadlockTimeout clock rest (reads + 2) w1 (ran ++ [task])

/-- Result of `processTasks`. -/
structure Processed where
  tm : TaskManager
  world : World
  ran : List Task

def TaskManager.processTasks (tm : TaskManager) (clock : Nat → Int) (w : World) :
    Proc Processed :=
  let tm1 : TaskManager := { tm with processing := true }
  match processLoop tm1.deadlockTimeout clock tm1.tasks 0 w [] with
  | Except.error stop => Except.error stop
  | Except.ok e =>
    Except.ok { tm := { tm1 with tasks := e.tasks, processing := false },
                world := e.world, ran := e.ran }

/-! ## Task bodies -/

/-- Reduction of an integer to the range of a 32-bit `int`. -/
def wrap32 (x : Int) : Int :=
  (x + 2147483648) % 4294967296 - 2147483648

def additionTask (a b : Int) : Task := fun w =>
  let result := wrap32 (a + b)
  Except.ok (w.print ("Addition: " ++ toString a ++ " + " ++ toString b ++ " = " ++ toString result))

def subtractionTask (a b : Int) : Task := fun w =>
  let result := wrap32 (a - b)
  Except.ok (w.print ("Subtraction: " ++ toString a ++ " - " ++ toString b ++ " = " ++ toString result))

def multiplicationTask (a b : Int) : Task := fun w =>
  let result := wrap32 (a * b)
  Except.ok (w.print ("Multiplication: " ++ toString a ++ " * " ++ toString b ++ " = " ++ toString result))

def divisionTask (a b : Int) : Task := fun w =>
  if b ≠ 0 then
    Except.ok (w.emit (Event.outQuot ("Division: " ++ toString a ++ " / " ++ toString b ++ " = ") a b))
  else
    Except.ok (w.print "Division by zero error!")

/-- The expression `a % b` on `int` with `b ≠ 0`: the remainder of the division
truncated towards zero. For `INT_MIN % -1` the quotient does not fit an `int`:
the division instruction faults and the process receives `SIGFPE`. -/
def intRem (a b : Int) : Option Int :=
  if a = INT_MIN ∧ b = -1 then none else some (a.tmod b)

def modulusTask (a b : Int) : Task := fun w =>
  if b ≠ 0 then
    match intRem a b with
    | none => Except.error (Halt.killed SIGFPE, w)
    | some result =>
      Except.ok (w.print ("Modulus: " ++ toString a ++ " % " ++ toString b ++ " = " ++ toString result))
  else
    Except.ok (w.print "Modulus by zero error!")

def performArithmeticTask (a b : Int) (taskFunction : Int → Int → Task) : Task := fun w =>
  taskFunction a b (w.emit (Event.sleep 2000))

/-! ## Shared memory -/

/-- What the kernel and the clock answer while one command is served. -/
structure Env where
  /-- Whether `shmget` with `IPC_CREAT` can create the segment when it is absent. -/
  createOk : Bool
  /-- Whether `shmat` succeeds in the controller. -/
  attachOk : Bool
  /-- Whether `fork` succeeds. -/
  forkOk : Bool
  /-- Whether `shmat` succeeds in the worker. -/
  workerAttachOk : Bool
  /-- Readings of `steady_clock::now()` in the worker, in call order. -/
  clock : Nat → Int

/-- The assignment `sharedMemory[i] = v`. -/
def store (seg : Nat → Int) (i : Nat) (v : Int) : Nat → Int :=
  fun j => if j = i then v else seg j

/-- The call `shmget(SHM_KEY, SHM_SIZE, IPC_CREAT | 0666)`: the segment after the
call, or `none` for the result `-1`. A new segment is filled with zeros. -/
def shmgetCreate (createOk : Bool) (shm : Shm) : Option (Nat → Int) :=
  match shm with
  | some seg => some seg
  | none => if createOk then some (fun _ => 0) else none

def writeToSharedMemory (createOk attachOk : Bool) (taskIdentifier number1 number2 : Int)
    (w : World) : Proc World :=
  match shmgetCreate createOk w.shm with
  | none => exitWith EXIT_FAILURE (w.printErr "Failed to create shared memory segment.")
  | some seg =>
    let w1 : World := { w with shm := some seg }
    if attachOk then
      let seg1 := store seg 0 taskIdentifier
      let seg2 := store seg1 1 number1
      let seg3 := store seg2 2 number2
      Except.ok { w1 with shm := some seg3 }
    else
      exitWith EXIT_FAILURE (w1.printErr "Failed to attach shared memory segment.")

/-- The record `(taskIdentifier, number1, number2)` is returned where the source
assigns its three reference parameters. The call `shmget(SHM_KEY, SHM_SIZE, 0666)`
has no `IPC_CREAT`: it yields `-1` when the segment is absent. -/
def readFromSharedMemory (attachOk : Bool) (w : World) : Proc (Int × Int × Int) :=
  match w.shm with
  | none => exitWith EXIT_FAILURE (w.printErr "Failed to get shared memory segment.")
  | some seg =>
    if attachOk then
      Except.ok (seg 0, seg 1, seg 2)
    else
      exitWith EXIT_FAILURE (w.printErr "Failed to attach shared memory segment.")

/-! ## Console -/

/-- The output of `displayMenu`; the choice it reads is part of the `Command`. -/
def displayMenu (w : World) : World :=
  (((((((w.print "Menu:").print "1. Set deadlock timeout").print "2. Add task").print
    "3. Show Shared Memory Contents").print "4. Clear Shared Memory").print
    "5. Display Task Manager Status").print "6. Exit").print "Enter your choice: "

def displayWelcomePage (w : World) : World :=
  (((((w.print "\x1b[1;34m").print "==================================").print
    "       Welcome to Task Manager    ").print "==================================").print
    "").print "\x1b[0m"

def displaySharedMemoryContents (attachOk : Bool) (w : World) : Proc World :=
  match readFromSharedMemory attachOk w with
  | Except.error stop => Except.error stop
  | Except.ok (taskIdentifier, number1, number2) =>
    Except.ok ((((w.print "Shared Memory Contents:").print
      ("Task Identifier: " ++ toString taskIdentifier)).print
      ("Number 1: " ++ toString number1)).print
      ("Number 2: " ++ toString number2))

/-! ## Controller and worker -/

/-- What the operator types in one turn of the loop of `main`: the menu choice
and the numbers asked for by that choice. -/
inductive Command where
  /-- Choice 1 and the timeout. -/
  | setTimeout (timeout : Int)
  /-- Choice 2 and the three numbers. -/
  | addTask (taskIdentifier number1 number2 : Int)
  /-- Choice 3. -/
  | showSharedMemory
  /-- Choice 4. -/
  | clearSharedMemory
  /-- Choice 5. -/
  | status
  /-- Choice 6. -/
  | exit
  /-- Any other choice. -/
  | other (choice : Int)
deriving DecidableEq, Repr

/-- The closure queued for a recognised task identifier. -/
def taskFor (taskIdentifier number1 number2 : Int) : Option Task :=
  if taskIdentifier = TASK_ADDITION then
    some (performArithmeticTask number1 number2 additionTask)
  else if taskIdentifier = TASK_SUBTRACTION then
    some (performArithmeticTask number1 number2 subtractionTask)
  else if taskIdentifier = TASK_MULTIPLICATION then
    some (performArithmeticTask number1 number2 multiplicationTask)
  else if taskIdentifier = TASK_DIVISION then
    some (performArithmeticTask number1 number2 divisionTask)
  else if taskIdentifier = TASK_MODULUS then
    some (performArithmeticTask number1 number2 modulusTask)
  else
    none

/-- The `switch (taskIdentifier)` of the child: the task manager after the
`addTask` of the matching case, or `none` for the `default` case. -/
def workerEnqueue (tm : TaskManager) (taskIdentifier number1 number2 : Int) :
    Option TaskManager :=
  match taskFor taskIdentifier number1 number2 with
  | some task => some (tm.addTask task)
  | none => none

/-- What the child process leaves behind. `ran` lists the closures it invoked
and that returned. -/
structure WorkerEnd where
  halt : Halt
  world : World
  ran : List Task

/-- The branch `pid == 0` of `main`. `tm` is the copy of the task manager the
child inherits. -/
def worker (env : Env) (tm : TaskManager) (w : World) : WorkerEnd :=
  match readFromSharedMemory env.workerAttachOk w with
  | Except.error stop => { halt := stop.1, world := stop.2, ran := [] }
  | Except.ok (taskIdentifier, number1, number2) =>
    match workerEnqueue tm taskIdentifier number1 number2 with
    | none =>
      { halt := Halt.exited EXIT_FAILURE, world := w.printErr "Invalid task identifier.",
        ran := [] }
    | some tm1 =>
      match tm1.processTasks env.clock w with
      | Except.error stop => { halt := stop.1, world := stop.2, ran := [] }
      | Except.ok p => { halt := Halt.exited EXIT_SUCCESS, world := p.world, ran := p.ran }

/-- State of the controller between two turns of its loop. `reaped` lists how
the children collected by `waitpid` ended, oldest first. -/
structure Controller where
  taskManager : TaskManager
  world : World
  reaped : List Halt

/-- Result of one turn of the loop: the controller goes on, or its process ended. -/
inductive Outcome where
  | running (c : Controller)
  | halted (halt : Halt) (world : World)

/-- The `switch (choice)` of `main`. -/
def dispatch (env : Env) (cmd : Command) (c : Controller) : Outcome :=
  match cmd with
  | Command.setTimeout timeout =>
    let w := c.world.print "Enter deadlock timeout in milliseconds: "
    Outcome.running { c with taskManager := c.taskManager.setDeadlockTimeout timeout, world := w }
  | Command.addTask taskIdentifier number1 number2 =>
    let w := ((c.world.print
      "Enter task identifier (1: Addition, 2: Subtraction, 3: Multiplication, 4: Division, 5: Modulus): ").print
      "Enter the first number: ").print "Enter the second number: "
    match writeToSharedMemory env.createOk env.attachOk taskIdentifier number1 number2 w with
    | Except.error stop => Outcome.halted stop.1 stop.2
    | Except.ok w1 =>
      if env.forkOk then
        let child := worker env c.taskManager w1
        Outcome.running { c with world := child.world, reaped := c.reaped ++ [child.halt] }
      else
        Outcome.halted (Halt.exited EXIT_FAILURE) (w1.printErr "Fork failed.")
  | Command.showSharedMemory =>
    match displaySharedMemoryContents env.attachOk c.world with
    | Except.error stop => Outcome.halted stop.1 stop.2
    | Except.ok w => Outcome.running { c with world := w }
  | Command.clearSharedMemory =>
    let w : World := { c.world with shm := none }
    Outcome.running { c with world := w.print "Shared memory cleared." }
  | Command.status =>
    if c.taskManager.isProcessing then
      Outcome.running { c with world := c.world.print "Task manager is currently processing tasks." }
    else
      Outcome.running { c with world := c.world.print "Task manager is idle." }
  | Command.exit =>
    Outcome.halted (Halt.exited 0) (c.world.print "Exiting...")
  | Command.other _ =>
    Outcome.running { c with world := c.world.print "Invalid choice. Please try again." }

/-- One turn of the `while (true)` loop of `main`. -/
def mainStep (env : Env) (cmd : Command) (c : Controller) : Outcome :=
  dispatch env cmd { c with world := displayMenu c.world }

/-- The loop of `main` over the turns the operator supplies. -/
def mainLoop : List (Env × Command) → Controller → Outcome
  | [], c => Outcome.running c
  | (env, cmd) :: rest, c =>
    match mainStep env cmd c with
    | Outcome.running c1 => mainLoop rest c1
    | Outcome.halted halt w => Outcome.halted halt w

/-- The controller when `main` enters its loop; `shm` is the segment as the
kernel holds it when the program starts. -/
def initial (shm : Shm) : Controller :=
  { taskManager := TaskManager.new,
    world := displayWelcomePage { shm := shm, trace := [] },
    reaped := [] }

def main (shm : Shm) (turns : List (Env × Command)) : Outcome :=
  mainLoop turns (initial shm)

/-! ## Notions used to state the properties -/

/-- Running closures one after the other, each once, in list order; the run
ends where a closure stops the process. -/
def runSeq : List Task → World → Proc World
  | [], w => Except.ok w
  | task :: rest, w =>
    match task w with
    | Except.error stop => Except.error stop
    | Except.ok w1 => runSeq rest w1

/-- The duration in whole milliseconds that `processTasks` measures for the
`k`-th closure it takes from the queue (counted from 0): the difference of
clock readings `2 * k` and `2 * k + 1`. -/
def measuredMs (clock : Nat → Int) (k : Nat) : Int :=
  durationMs (clock (2 * k)) (clock (2 * k + 1))

/-- The kernel grants every request made while the command is served. -/
def Env.granted (env : Env) : Prop :=
  env.createOk = true ∧ env.attachOk = true ∧ env.forkOk = true ∧ env.workerAttachOk = true

instance (env : Env) : Decidable env.granted := by
  unfold Env.granted; infer_instance

/-- A controller state the program can be in when it is about to show its menu. -/
def Reachable (c : Controller) : Prop :=
  ∃ (shm : Shm) (turns : List (Env × Command)), main shm turns = Outcome.running c

/-- The segment after the three stores of `writeToSharedMemory`; a segment that
was absent starts filled with zeros. -/
def written (shm : Shm) (taskIdentifier number1 number2 : Int) : Nat → Int :=
  store (store (store (shm.getD (fun _ => 0)) 0 taskIdentifier) 1 number1) 2 number2

/-- The three prompts of menu choice 2. -/
def submitPrompts (w : World) : World :=
  ((w.print
    "Enter task identifier (1: Addition, 2: Subtraction, 3: Multiplication, 4: Division, 5: Modulus): ").print
    "Enter the first number: ").print "Enter the second number: "

/-- The world at the `fork` of menu choice 2 in a turn that starts in world `w`:
the menu and the prompts are on the terminal and the record is in the segment. -/
def forkWorld (w : World) (taskIdentifier number1 number2 : Int) : World :=
  { shm := some (written (displayMenu w).shm taskIdentifier number1 number2),
    trace := (submitPrompts (displayMenu w)).trace }

/-! ## Lemmas on the task queue -/

theorem clearLoop_nil (tasks : List Task) : clearLoop tasks = [] := by
  induction tasks with
  | nil => rfl
  | cons _ rest ih => simpa [clearLoop] using ih

theorem foldl_addTask_tasks (tasks : List Task) (tm : TaskManager) :
    (tasks.foldl TaskManager.addTask tm).tasks = tm.tasks ++ tasks := by
  induction tasks generalizing tm with
  | nil => simp
  | cons t rest ih => simp [ih, TaskManager.addTask]

theorem foldl_addTask_timeout (tasks : List Task) (tm : TaskManager) :
    (tasks.foldl TaskManager.addTask tm).deadlockTimeout = tm.deadlockTimeout := by
  induction tasks generalizing tm with
  | nil => simp
  | cons t rest ih => simp [ih, TaskManager.addTask]

/-- The loop runs the whole queue when no measured duration exceeds the timeout. -/
theorem processLoop_all (timeout : Int) (clock : Nat → Int) (tasks : List Task) :
    ∀ (reads : Nat) (w w1 : World) (ran : List Task),
      runSeq tasks w = Except.ok w1 →
      (∀ k, k < tasks.length →
        durationMs (clock (reads + 2 * k)) (clock (reads + 2 * k + 1)) ≤ timeout) →
      processLoop timeout clock tasks reads w ran =
        Except.ok { tasks := [], world := w1, ran := ran ++ tasks,
                    reads := reads + 2 * tasks.length } := by
  induction tasks with
  | nil =>
    intro reads w w1 ran hrun _
    simp only [runSeq, Except.ok.injEq] at hrun
    simp [processLoop, hrun]
  | cons t rest ih =>
    intro reads w w1 ran hrun hfast
    simp only [runSeq] at hrun
    cases ht : t w with
    | error stop => simp [ht] at hrun
    | ok w2 =>
      simp only [ht] at hrun
      have h0 := hfast 0 (by simp)
      simp only [Nat.mul_zero, Nat.add_zero] at h0
      have hrest := ih (reads + 2) w2 w1 (ran ++ [t]) hrun (by
        intro k hk
        have := hfast (k + 1) (by simpa using hk)
        have e : reads + 2 * (k + 1) = reads + 2 + 2 * k := by ring
        rw [e] at this
        exact this)
      simp only [processLoop, ht, gt_iff_lt, not_lt.mpr h0, if_false]
      rw [hrest]
      simp [List.length_cons]
      ring

/-- The loop stops behind the first closure whose measured duration exceeds the
timeout. -/
theorem processLoop_stall (timeout : Int) (clock : Nat → Int) (tasks : List Task) :
    ∀ (i reads : Nat) (w w1 : World) (ran : List Task),
      i < tasks.length →
      runSeq (tasks.take (i + 1)) w = Except.ok w1 →
      (∀ k, k < i →
        durationMs (clock (reads + 2 * k)) (clock (reads + 2 * k + 1)) ≤ timeout) →
      timeout < durationMs (clock (reads + 2 * i)) (clock (reads + 2 * i + 1)) →
      processLoop timeout clock tasks reads w ran =
        Except.ok { tasks := tasks.drop (i + 1), world := w1.print stallMessage,
                    ran := ran ++ tasks.take (i + 1), reads := reads + 2 * (i + 1) } := by
  induction tasks with
  | nil => intro i reads w w1 ran hi; simp at hi
  | cons t rest ih =>
    intro i reads w w1 ran hi hrun hfast hslow
    simp only [List.take_succ_cons, runSeq] at hrun
    cases ht : t w with
    | error stop => simp [ht] at hrun
    | ok w2 =>
      simp only [ht] at hrun
      cases i with
      | zero =>
        simp only [List.take_zero, runSeq, Except.ok.injEq] at hrun
        simp only [Nat.mul_zero, Nat.add_zero] at hslow
        simp [processLoop, ht, hslow, hrun]
      | succ j =>
        have h0 := hfast 0 (by simp)
        simp only [Nat.mul_zero, Nat.add_zero] at h0
        have e : ∀ k, reads + 2 * (k + 1) = reads + 2 + 2 * k := fun k => by ring
        have hrest := ih j (reads + 2) w2 w1 (ran ++ [t]) (by simpa using hi) hrun
          (by
            intro k hk
            have := hfast (k + 1) (by omega)
            rw [e] at this
            exact this)
          (by rw [e] at hslow; exact hslow)
        simp only [processLoop, ht, gt_iff_lt, not_lt.mpr h0, if_false]
        rw [hrest]
        simp
        ring

/-! ## Lemmas on the shared segment, the worker and the controller -/

theorem writeToSharedMemory_granted (k a b : Int) (w : World) :
    writeToSharedMemory true true k a b w =
      Except.ok { shm := some (written w.shm k a b), trace := w.trace } := by
  cases w with
  | mk shm trace =>
    cases shm <;> simp [writeToSharedMemory, shmgetCreate, written]

theorem written_words (shm : Shm) (k a b : Int) :
    written shm k a b 0 = k ∧ written shm k a b 1 = a ∧ written shm k a b 2 = b := by
  simp [written, store]

theorem taskFor_eq_none (k a b : Int) : taskFor k a b = none ↔ (k < 1 ∨ 5 < k) := by
  unfold taskFor TASK_ADDITION TASK_SUBTRACTION TASK_MULTIPLICATION TASK_DIVISION TASK_MODULUS
  constructor
  · intro h
    split_ifs at h
    omega
  · intro h
    split_ifs <;> first | omega | rfl

/-- The child on a present segment it can attach, with an empty inherited queue
and a recognised identifier: it runs the one closure and exits with success,
unless the closure stops the process. -/
theorem worker_of_task (env : Env) (tm : TaskManager) (w : World) (seg : Nat → Int)
    (task : Task) (hs : w.shm = some seg) (ha : env.workerAttachOk = true)
    (hq : tm.tasks = []) (ht : taskFor (seg 0) (seg 1) (seg 2) = some task) :
    worker env tm w =
      match task w with
      | Except.error stop => { halt := stop.1, world := stop.2, ran := [] }
      | Except.ok w2 =>
        { halt := Halt.exited EXIT_SUCCESS,
          world := if tm.deadlockTimeout < measuredMs env.clock 0 then w2.print stallMessage
                   else w2,
          ran := [task] } := by
  simp only [worker, readFromSharedMemory, hs, ha, if_true, workerEnqueue, ht,
    TaskManager.processTasks, TaskManager.addTask, hq, List.nil_append, processLoop]
  cases task w with
  | error stop => rfl
  | ok w2 =>
    simp only [measuredMs, gt_iff_lt, Nat.mul_zero, Nat.zero_add]
    split_ifs <;> simp [processLoop]

/-- The child on a present segment it can attach and an identifier outside
`1..5`. -/
theorem worker_of_unknown (env : Env) (tm : TaskManager) (w : World) (seg : Nat → Int)
    (hs : w.shm = some seg) (ha : env.workerAttachOk = true)
    (ht : taskFor (seg 0) (seg 1) (seg 2) = none) :
    worker env tm w =
      { halt := Halt.exited EXIT_FAILURE, world := w.printErr "Invalid task identifier.",
        ran := [] } := by
  simp [worker, readFromSharedMemory, hs, ha, workerEnqueue, ht]

/-- Menu choice 2 when the kernel grants every request: the record is written,
the child runs on the written segment, and the controller collects it. -/
theorem dispatch_addTask_granted (env : Env) (c : Controller) (k a b : Int)
    (henv : env.granted) :
    dispatch env (Command.addTask k a b) c =
      Outcome.running
        { c with
          world := (worker env c.taskManager
            { shm := some (written c.world.shm k a b),
              trace := (submitPrompts c.world).trace }).world,
          reaped := c.reaped ++ [(worker env c.taskManager
            { shm := some (written c.world.shm k a b),
              trace := (submitPrompts c.world).trace }).halt] } := by
  obtain ⟨h1, h2, h3, _⟩ := henv
  have hw := writeToSharedMemory_granted k a b (submitPrompts c.world)
  simp only [dispatch, h1, h2, h3]
  have e : ((c.world.print
      "Enter task identifier (1: Addition, 2: Subtraction, 3: Multiplication, 4: Division, 5: Modulus): ").print
      "Enter the first number: ").print "Enter the second number: " = submitPrompts c.world := rfl
  rw [e, hw]
  rfl

/-- No turn of the loop changes the queue or the flag of the controller. -/
theorem dispatch_keeps_queue (env : Env) (cmd : Command) (c c1 : Controller)
    (h : dispatch env cmd c = Outcome.running c1) :
    c1.taskManager.tasks = c.taskManager.tasks ∧
      c1.taskManager.processing = c.taskManager.processing := by
  cases cmd with
  | setTimeout t =>
    simp only [dispatch, Outcome.running.injEq] at h
    subst h; exact ⟨rfl, rfl⟩
  | addTask k a b =>
    simp only [dispatch] at h
    split at h
    · cases h
    · split_ifs at h
      simp only [Outcome.running.injEq] at h
      subst h; exact ⟨rfl, rfl⟩
  | showSharedMemory =>
    simp only [dispatch] at h
    split at h
    · cases h
    · simp only [Outcome.running.injEq] at h
      subst h; exact ⟨rfl, rfl⟩
  | clearSharedMemory =>
    simp only [dispatch, Outcome.running.injEq] at h
    subst h; exact ⟨rfl, rfl⟩
  | status =>
    simp only [dispatch] at h
    split_ifs at h <;>
    · simp only [Outcome.running.injEq] at h
      subst h; exact ⟨rfl, rfl⟩
  | exit => simp [dispatch] at h
  | other n =>
    simp only [dispatch, Outcome.running.injEq] at h
    subst h; exact ⟨rfl, rfl⟩

theorem mainLoop_keeps_queue (turns : List (Env × Command)) :
    ∀ (c c1 : Controller), mainLoop turns c = Outcome.running c1 →
      c1.taskManager.tasks = c.taskManager.tasks ∧
        c1.taskManager.processing = c.taskManager.processing := by
  induction turns with
  | nil =>
    intro c c1 h
    simp only [mainLoop, Outcome.running.injEq] at h
    subst h; exact ⟨rfl, rfl⟩
  | cons turn rest ih =>
    intro c c1 h
    obtain ⟨env, cmd⟩ := turn
    simp only [mainLoop] at h
    split at h
    · rename_i c2 hstep
      have h2 := dispatch_keeps_queue env cmd _ c2 hstep
      have h3 := ih c2 c1 h
      exact ⟨h3.1.trans h2.1, h3.2.trans h2.2⟩
    · cases h

/-- A turn other than a submit does not create the segment. -/
theorem dispatch_keeps_absent (env : Env) (cmd : Command) (c c1 : Controller)
    (hw : ∀ k a b : Int, cmd ≠ Command.addTask k a b) (hs : c.world.shm = none)
    (h : dispatch env cmd c = Outcome.running c1) : c1.world.shm = none := by
  cases cmd with
  | setTimeout t =>
    simp only [dispatch, Outcome.running.injEq] at h
    subst h; exact hs
  | addTask k a b => exact absurd rfl (hw k a b)
  | showSharedMemory =>
    simp [dispatch, displaySharedMemoryContents, readFromSharedMemory, hs, exitWith] at h
  | clearSharedMemory =>
    simp only [dispatch, Outcome.running.injEq] at h
    subst h; rfl
  | status =>
    simp only [dispatch] at h
    split_ifs at h <;>
    · simp only [Outcome.running.injEq] at h
      subst h; exact hs
  | exit => simp [dispatch] at h
  | other n =>
    simp only [dispatch, Outcome.running.injEq] at h
    subst h; exact hs

theorem mainLoop_keeps_absent (turns : List (Env × Command)) :
    ∀ (c c1 : Controller), (∀ t ∈ turns, ∀ k a b : Int, t.2 ≠ Command.addTask k a b) →
      c.world.shm = none → mainLoop turns c = Outcome.running c1 → c1.world.shm = none := by
  induction turns with
  | nil =>
    intro c c1 _ hs h
    simp only [mainLoop, Outcome.running.injEq] at h
    subst h; exact hs
  | cons turn rest ih =>
    intro c c1 hw hs h
    obtain ⟨env, cmd⟩ := turn
    simp only [mainLoop] at h
    split at h
    · rename_i c2 hstep
      have h2 : c2.world.shm = none :=
        dispatch_keeps_absent env cmd { c with world := displayMenu c.world } c2
          (hw (env, cmd) (by simp)) hs hstep
      exact ih c2 c1 (fun t ht => hw t (by simp [ht])) h2 h
    · cases h

theorem reachable_idle (c : Controller) (h : Reachable c) :
    c.taskManager.tasks = [] ∧ c.taskManager.processing = false := by
  obtain ⟨shm, turns, hrun⟩ := h
  exact mainLoop_keeps_queue turns (initial shm) c hrun

theorem reachable_initial (shm : Shm) : Reachable (initial shm) :=
  ⟨shm, [], rfl⟩

/-! ## The task queue -/

/-- C1: tasks enqueued with `addTask` on an empty queue, each returning and each
measured at no more than the timeout, are all run by `processTasks`, once each
and in the order of enqueueing (`ran` is the list itself and the world is that of
running them in sequence); the call returns with an empty queue, the timeout
unchanged and `processing = false`. -/
theorem processTasks_runs_all_in_order (tm0 : TaskManager) (tasks : List Task)
    (clock : Nat → Int) (w w1 : World)
    (hempty : tm0.tasks = [])
    (hret : runSeq tasks w = Except.ok w1)
    (hfast : ∀ k, k < tasks.length → measuredMs clock k ≤ tm0.deadlockTimeout) :
    (tasks.foldl TaskManager.addTask tm0).processTasks clock w =
      Except.ok { tm := { tasks := [], deadlockTimeout := tm0.deadlockTimeout,
                          processing := false },
                  world := w1, ran := tasks } := by
  have hq : (tasks.foldl TaskManager.addTask tm0).tasks = tasks := by
    rw [foldl_addTask_tasks, hempty]; rfl
  have hloop := processLoop_all tm0.deadlockTimeout clock tasks 0 w w1 [] hret (by
    intro k hk
    have := hfast k hk
    simpa [measuredMs] using this)
  simp only [TaskManager.processTasks, foldl_addTask_timeout, hq, hloop]
  simp

/-- Two quick closures on a fresh task manager with the default timeout. -/
theorem processTasks_runs_all_in_order_witness :
    ([additionTask 7 3, subtractionTask 7 3].foldl TaskManager.addTask
        TaskManager.new).processTasks (fun n => 5000000 * (n : Int)) { shm := none, trace := [] } =
      Except.ok { tm := { tasks := [], deadlockTimeout := 1000, processing := false },
                  world := { shm := none,
                             trace := [Event.out "Addition: 7 + 3 = 10",
                                       Event.out "Subtraction: 7 - 3 = 4"] },
                  ran := [additionTask 7 3, subtractionTask 7 3] } :=
  processTasks_runs_all_in_order TaskManager.new [additionTask 7 3, subtractionTask 7 3]
    (fun n => 5000000 * (n : Int)) { shm := none, trace := [] }
    { shm := none,
      trace := [Event.out "Addition: 7 + 3 = 10", Event.out "Subtraction: 7 - 3 = 4"] }
    rfl rfl
    (by
      intro k hk
      have hk2 : k < 2 := hk
      interval_cases k <;> decide)

/-- C2: when closure `i` of the queue is the first whose measured duration
exceeds the timeout (closures `0..i` returning), `processTasks` runs exactly
closures `0..i` in order, writes the stall diagnostic, leaves closures
`i+1..` in the queue in their order (a non-empty queue when there are any),
and returns with `processing = false` and the timeout unchanged. -/
theorem processTasks_stops_at_first_slow (tm : TaskManager) (clock : Nat → Int)
    (w w1 : World) (i : Nat)
    (hi : i < tm.tasks.length)
    (hret : runSeq (tm.tasks.take (i + 1)) w = Except.ok w1)
    (hfast : ∀ k, k < i → measuredMs clock k ≤ tm.deadlockTimeout)
    (hslow : tm.deadlockTimeout < measuredMs clock i) :
    tm.processTasks clock w =
        Except.ok { tm := { tasks := tm.tasks.drop (i + 1),
                            deadlockTimeout := tm.deadlockTimeout, processing := false },
                    world := w1.print stallMessage, ran := tm.tasks.take (i + 1) } ∧
      (i + 1 < tm.tasks.length → tm.tasks.drop (i + 1) ≠ []) := by
  constructor
  · have hloop := processLoop_stall tm.deadlockTimeout clock tm.tasks i 0 w w1 [] hi hret
      (by
        intro k hk
        have := hfast k hk
        simpa [measuredMs] using this)
      (by simpa [measuredMs] using hslow)
    simp only [TaskManager.processTasks, hloop]
    simp
  · intro h hnil
    have := congrArg List.length hnil
    simp at this
    omega

/-- A timeout of 100 ms, a first closure measured at 2000 ms and one more closure
behind it. -/
theorem processTasks_stops_at_first_slow_witness :
    ({ tasks := [performArithmeticTask 7 3 additionTask, additionTask 1 2],
       deadlockTimeout := 100, processing := false } : TaskManager).processTasks
        (fun n => 2000000000 * (n : Int)) { shm := none, trace := [] } =
      Except.ok { tm := { tasks := [additionTask 1 2], deadlockTimeout := 100,
                          processing := false },
                  world := { shm := none,
                             trace := [Event.sleep 2000, Event.out "Addition: 7 + 3 = 10",
                                       Event.out stallMessage] },
                  ran := [performArithmeticTask 7 3 additionTask] } :=
  (processTasks_stops_at_first_slow
    { tasks := [performArithmeticTask 7 3 additionTask, additionTask 1 2],
      deadlockTimeout := 100, processing := false }
    (fun n => 2000000000 * (n : Int)) { shm := none, trace := [] }
    { shm := none, trace := [Event.sleep 2000, Event.out "Addition: 7 + 3 = 10"] } 0
    (by decide) rfl (by intro k hk; omega) (by decide)).1

/-- C9: `clearTasks` leaves an empty queue and changes neither the timeout nor
the `processing` flag; it takes no world and so runs no closure; a
`processTasks` right after it invokes no closure and leaves the world as it was. -/
theorem clearTasks_drops_pending (tm : TaskManager) (clock : Nat → Int) (w : World) :
    tm.clearTasks.tasks = [] ∧
      tm.clearTasks.deadlockTimeout = tm.deadlockTimeout ∧
      tm.clearTasks.processing = tm.processing ∧
      tm.clearTasks.processTasks clock w =
        Except.ok { tm := { tasks := [], deadlockTimeout := tm.deadlockTimeout,
                            processing := false },
                    world := w, ran := [] } := by
  refine ⟨clearLoop_nil _, rfl, rfl, ?_⟩
  simp [TaskManager.processTasks, TaskManager.clearTasks, clearLoop_nil, processLoop]

/-! ## The shared segment -/

/-- C3: with the kernel granting the requests, `writeToSharedMemory kind a b`
succeeds, writes nothing to the terminal, leaves a segment holding `kind`, `a`,
`b` at `int` offsets 0, 1, 2, and a `readFromSharedMemory` right after it yields
exactly `(kind, a, b)`. -/
theorem write_then_read_roundtrip (kind a b : Int) (w : World) :
    ∃ seg : Nat → Int,
      writeToSharedMemory true true kind a b w =
          Except.ok { shm := some seg, trace := w.trace } ∧
        seg 0 = kind ∧ seg 1 = a ∧ seg 2 = b ∧
        readFromSharedMemory true { shm := some seg, trace := w.trace } =
          Except.ok (kind, a, b) := by
  obtain ⟨h0, h1, h2⟩ := written_words w.shm kind a b
  refine ⟨written w.shm kind a b, writeToSharedMemory_granted kind a b w, h0, h1, h2, ?_⟩
  simp [readFromSharedMemory, h0, h1, h2]

/-- C8, amended: once menu choice 4 has been served, and whatever commands other
than a submit follow while the controller runs, there is no segment, and a read
stops the process with status `EXIT_FAILURE` at the `shmget` step, with the
diagnostic "Failed to get shared memory segment.", whether or not an attach
would succeed; menu choice 3 then ends the controller in that way. -/
theorem read_after_clear_fails_at_get (env env1 : Env) (c c2 : Controller)
    (turns : List (Env × Command)) (attachOk : Bool)
    (hnowrite : ∀ t ∈ turns, ∀ k a b : Int, t.2 ≠ Command.addTask k a b)
    (hrun : mainLoop ((env, Command.clearSharedMemory) :: turns) c = Outcome.running c2) :
    c2.world.shm = none ∧
      readFromSharedMemory attachOk c2.world =
        Except.error (Halt.exited EXIT_FAILURE,
          c2.world.printErr "Failed to get shared memory segment.") ∧
      mainStep env1 Command.showSharedMemory c2 =
        Outcome.halted (Halt.exited EXIT_FAILURE)
          ((displayMenu c2.world).printErr "Failed to get shared memory segment.") := by
  have habsent : c2.world.shm = none := by
    simp only [mainLoop, mainStep, dispatch] at hrun
    exact mainLoop_keeps_absent turns _ c2 hnowrite rfl hrun
  refine ⟨habsent, ?_, ?_⟩
  · simp [readFromSharedMemory, habsent, exitWith]
  · have hmenu : (displayMenu c2.world).shm = none := habsent
    simp [mainStep, dispatch, displaySharedMemoryContents, readFromSharedMemory, hmenu, exitWith]

/-- A segment left by an earlier run, destroyed, then a status query, then a read
whose attach would succeed. -/
theorem read_after_clear_fails_at_get_witness :
    ∃ c2 : Controller,
      mainLoop [(⟨true, true, true, true, fun _ => 0⟩, Command.clearSharedMemory),
          (⟨true, true, true, true, fun _ => 0⟩, Command.status)]
          (initial (some (fun _ => 0))) = Outcome.running c2 ∧
        readFromSharedMemory true c2.world =
          Except.error (Halt.exited EXIT_FAILURE,
            c2.world.printErr "Failed to get shared memory segment.") :=
  ⟨_, rfl,
    (read_after_clear_fails_at_get ⟨true, true, true, true, fun _ => 0⟩
      ⟨true, true, true, true, fun _ => 0⟩ (initial (some (fun _ => 0))) _
      [(⟨true, true, true, true, fun _ => 0⟩, Command.status)] true
      (by
        intro t ht k a b
        simp only [List.mem_singleton] at ht
        subst ht
        simp)
      rfl).2.1⟩

/-- C8 as stated fails: after menu choice 4 on a fresh controller, with an attach
that would succeed, the read does not end with the attach diagnostic. -/
theorem read_after_clear_not_attach_failure :
    ∃ c1 : Controller,
      dispatch ⟨true, true, true, true, fun _ => 0⟩ Command.clearSharedMemory
          (initial (some (fun _ => 0))) = Outcome.running c1 ∧
        readFromSharedMemory true c1.world ≠
          Except.error (Halt.exited EXIT_FAILURE,
            c1.world.printErr "Failed to attach shared memory segment.") := by
  refine ⟨_, rfl, ?_⟩
  intro h
  simp only [readFromSharedMemory, dispatch, World.print, exitWith, Except.error.injEq,
    Prod.mk.injEq, true_and] at h
  have ht := congrArg World.trace h
  simp [World.printErr] at ht

/-! ## Submitting a task -/

/-- C5: for an identifier outside `1..5`, with the kernel granting the requests,
the child queues nothing, runs no closure, reports the identifier as invalid and
exits with the non-zero status `EXIT_FAILURE`; the controller collects that
status and goes on with its loop, its task manager untouched. -/
theorem unknown_kind_fails_worker_only (env : Env) (c : Controller) (kind a b : Int)
    (henv : env.granted) (hkind : kind < 1 ∨ 5 < kind) :
    workerEnqueue c.taskManager kind a b = none ∧
      worker env c.taskManager
          { shm := some (written (displayMenu c.world).shm kind a b),
            trace := (submitPrompts (displayMenu c.world)).trace } =
        { halt := Halt.exited EXIT_FAILURE,
          world := { shm := some (written (displayMenu c.world).shm kind a b),
                     trace := (submitPrompts (displayMenu c.world)).trace ++
                       [Event.err "Invalid task identifier."] },
          ran := [] } ∧
      EXIT_FAILURE ≠ 0 ∧
      mainStep env (Command.addTask kind a b) c =
        Outcome.running
          { taskManager := c.taskManager,
            world := { shm := some (written (displayMenu c.world).shm kind a b),
                       trace := (submitPrompts (displayMenu c.world)).trace ++
                         [Event.err "Invalid task identifier."] },
            reaped := c.reaped ++ [Halt.exited EXIT_FAILURE] } := by
  have hnone : taskFor kind a b = none := (taskFor_eq_none kind a b).mpr hkind
  obtain ⟨h0, h1, h2⟩ := written_words (displayMenu c.world).shm kind a b
  have hw := worker_of_unknown env c.taskManager
    { shm := some (written (displayMenu c.world).shm kind a b),
      trace := (submitPrompts (displayMenu c.world)).trace } _ rfl henv.2.2.2
    (by rw [h0, h1, h2]; exact hnone)
  refine ⟨by simp [workerEnqueue, hnone], hw, by decide, ?_⟩
  have hd := dispatch_addTask_granted env { c with world := displayMenu c.world } kind a b henv
  simp only [mainStep, hd]
  rw [hw]
  rfl

/-- The identifier 9 on a fresh controller. -/
theorem unknown_kind_fails_worker_only_witness :
    mainStep ⟨true, true, true, true, fun _ => 0⟩ (Command.addTask 9 7 3) (initial none) =
      Outcome.running
        { taskManager := TaskManager.new,
          world := { shm := some (written none 9 7 3),
                     trace := (submitPrompts (displayMenu (initial none).world)).trace ++
                       [Event.err "Invalid task identifier."] },
          reaped := [Halt.exited 1] } :=
  (unknown_kind_fails_worker_only ⟨true, true, true, true, fun _ => 0⟩ (initial none) 9 7 3
    (by decide) (by decide)).2.2.2

/-- A closure built for a recognised identifier sleeps, then either writes one
piece of output and returns, or is the remainder `INT_MIN % -1`. -/
theorem taskFor_runs (kind a b : Int) (w : World)
    (hkind : 1 ≤ kind ∧ kind ≤ 5)
    (hdef : ¬ (kind = TASK_MODULUS ∧ a = INT_MIN ∧ b = -1)) :
    ∃ (task : Task) (e : Event),
      taskFor kind a b = some task ∧
        task w = Except.ok { shm := w.shm, trace := w.trace ++ [Event.sleep 2000, e] } := by
  obtain ⟨hlo, hhi⟩ := hkind
  have hcases : kind = 1 ∨ kind = 2 ∨ kind = 3 ∨ kind = 4 ∨ kind = 5 := by omega
  rcases hcases with h | h | h | h | h <;> subst h
  · exact ⟨_, Event.out ("Addition: " ++ toString a ++ " + " ++ toString b ++ " = " ++
        toString (wrap32 (a + b))), rfl, by
      simp [performArithmeticTask, additionTask, World.emit, World.print]⟩
  · exact ⟨_, Event.out ("Subtraction: " ++ toString a ++ " - " ++ toString b ++ " = " ++
        toString (wrap32 (a - b))), rfl, by
      simp [performArithmeticTask, subtractionTask, World.emit, World.print]⟩
  · exact ⟨_, Event.out ("Multiplication: " ++ toString a ++ " * " ++ toString b ++ " = " ++
        toString (wrap32 (a * b))), rfl, by
      simp [performArithmeticTask, multiplicationTask, World.emit, World.print]⟩
  · by_cases hb : b = 0
    · exact ⟨_, Event.out "Division by zero error!", rfl, by
        simp [performArithmeticTask, divisionTask, World.emit, World.print, hb]⟩
    · exact ⟨_, Event.outQuot ("Division: " ++ toString a ++ " / " ++ toString b ++ " = ") a b,
        rfl, by simp [performArithmeticTask, divisionTask, World.emit, hb]⟩
  · by_cases hb : b = 0
    · exact ⟨_, Event.out "Modulus by zero error!", rfl, by
        simp [performArithmeticTask, modulusTask, World.emit, World.print, hb]⟩
    · have hrem : intRem a b = some (a.tmod b) := by
        unfold intRem
        rw [if_neg]
        intro hab
        exact hdef ⟨rfl, hab.1, hab.2⟩
      exact ⟨_, Event.out ("Modulus: " ++ toString a ++ " % " ++ toString b ++ " = " ++
          toString (a.tmod b)), rfl, by
        simp [performArithmeticTask, modulusTask, World.emit, World.print, hb, hrem]⟩

/-- Submitting a record with an identifier in `1..5`, other than the remainder
`INT_MIN % -1`, from a reachable controller with the kernel granting the
requests: the segment holds the record, the child reads it back, runs the one
closure built from it once, and exits with status 0; the controller collects
that status and goes on. -/
theorem recognised_kind_runs_once (env : Env) (c : Controller) (kind a b : Int)
    (henv : env.granted) (hc : Reachable c) (hkind : 1 ≤ kind ∧ kind ≤ 5)
    (hdef : ¬ (kind = TASK_MODULUS ∧ a = INT_MIN ∧ b = -1)) :
    ∃ (task : Task) (e : Event) (seg : Nat → Int) (trace : Trace),
      seg 0 = kind ∧ seg 1 = a ∧ seg 2 = b ∧
        readFromSharedMemory env.workerAttachOk
            { shm := some seg, trace := (submitPrompts (displayMenu c.world)).trace } =
          Except.ok (kind, a, b) ∧
        taskFor kind a b = some task ∧
        worker env c.taskManager
            { shm := some seg, trace := (submitPrompts (displayMenu c.world)).trace } =
          { halt := Halt.exited 0, world := { shm := some seg, trace := trace },
            ran := [task] } ∧
        (trace = (submitPrompts (displayMenu c.world)).trace ++ [Event.sleep 2000, e] ∨
          trace = (submitPrompts (displayMenu c.world)).trace ++
            [Event.sleep 2000, e, Event.out stallMessage]) ∧
        mainStep env (Command.addTask kind a b) c =
          Outcome.running
            { taskManager := c.taskManager,
              world := { shm := some seg, trace := trace },
              reaped := c.reaped ++ [Halt.exited 0] } := by
  obtain ⟨h0, h1, h2⟩ := written_words (displayMenu c.world).shm kind a b
  obtain ⟨task, e, htask, hrun⟩ := taskFor_runs kind a b
    { shm := some (written (displayMenu c.world).shm kind a b),
      trace := (submitPrompts (displayMenu c.world)).trace } hkind hdef
  have hw := worker_of_task env c.taskManager
    { shm := some (written (displayMenu c.world).shm kind a b),
      trace := (submitPrompts (displayMenu c.world)).trace } _ task rfl henv.2.2.2
    (reachable_idle c hc).1 (by rw [h0, h1, h2]; exact htask)
  rw [hrun] at hw
  have hd := dispatch_addTask_granted env { c with world := displayMenu c.world } kind a b henv
  by_cases hst : c.taskManager.deadlockTimeout < measuredMs env.clock 0
  · refine ⟨task, e, written (displayMenu c.world).shm kind a b, _, h0, h1, h2, ?_, htask, ?_,
      Or.inr rfl, ?_⟩
    · simp [readFromSharedMemory, henv.2.2.2, h0, h1, h2]
    · rw [hw]; simp [hst, World.print, EXIT_SUCCESS]
    · simp only [mainStep, hd]
      rw [hw]; simp [hst, World.print, EXIT_SUCCESS]
  · refine ⟨task, e, written (displayMenu c.world).shm kind a b, _, h0, h1, h2, ?_, htask, ?_,
      Or.inl rfl, ?_⟩
    · simp [readFromSharedMemory, henv.2.2.2, h0, h1, h2]
    · rw [hw]; simp [hst, EXIT_SUCCESS]
    · simp only [mainStep, hd]
      rw [hw]; simp [hst, EXIT_SUCCESS]

/-- Submitting `(Addition, 7, 3)` on a fresh controller with the default timeout,
the child measuring 2000 ms: the segment holds `(1, 7, 3)`, the child writes
"Addition: 7 + 3 = 10" and exits with status 0, and the controller goes on. -/
theorem submit_addition_7_3 :
    mainStep ⟨true, true, true, true, fun n => 2000000000 * (n : Int)⟩ (Command.addTask 1 7 3)
        (initial none) =
      Outcome.running
        { taskManager := TaskManager.new,
          world := { shm := some (written none 1 7 3),
                     trace := (submitPrompts (displayMenu (initial none).world)).trace ++
                       [Event.sleep 2000, Event.out "Addition: 7 + 3 = 10",
                        Event.out stallMessage] },
          reaped := [Halt.exited 0] } ∧
      written none 1 7 3 0 = 1 ∧ written none 1 7 3 1 = 7 ∧ written none 1 7 3 2 = 3 :=
  ⟨rfl, rfl, rfl, rfl⟩

/-- C4 fails at the record `(Modulus, INT_MIN, -1)`: the child is killed by
`SIGFPE` inside the task body, after the sleep and before any output, instead of
exiting with status 0. -/
theorem modulus_overflow_kills_worker :
    mainStep ⟨true, true, true, true, fun n => 2000000000 * (n : Int)⟩
        (Command.addTask 5 (-2147483648) (-1)) (initial none) =
      Outcome.running
        { taskManager := TaskManager.new,
          world := { shm := some (written none 5 (-2147483648) (-1)),
                     trace := (submitPrompts (displayMenu (initial none).world)).trace ++
                       [Event.sleep 2000] },
          reaped := [Halt.killed SIGFPE] } :=
  rfl

/-- C6: a division or modulus task with second operand 0 takes the `else` branch:
it writes its diagnostic and returns, with no quotient or remainder computed.
Submitted from a reachable controller with the kernel granting the requests, the
child writes the diagnostic after its sleep (then the stall diagnostic when the
measured duration exceeds the timeout), exits with status 0, and the controller
collects that status and goes on. -/
theorem zero_divisor_reports_and_exits_zero (env : Env) (c : Controller) (kind a : Int)
    (diag : String) (henv : env.granted) (hc : Reachable c)
    (hkind : (kind = TASK_DIVISION ∧ diag = "Division by zero error!") ∨
      (kind = TASK_MODULUS ∧ diag = "Modulus by zero error!")) :
    (∀ w : World, divisionTask a 0 w = Except.ok (w.print "Division by zero error!")) ∧
      (∀ w : World, modulusTask a 0 w = Except.ok (w.print "Modulus by zero error!")) ∧
      mainStep env (Command.addTask kind a 0) c =
        Outcome.running
          { taskManager := c.taskManager,
            world :=
              { shm := some (written (displayMenu c.world).shm kind a 0),
                trace := (submitPrompts (displayMenu c.world)).trace ++
                  [Event.sleep 2000, Event.out diag] ++
                  (if c.taskManager.deadlockTimeout < measuredMs env.clock 0 then
                    [Event.out stallMessage] else []) },
            reaped := c.reaped ++ [Halt.exited 0] } := by
  refine ⟨fun w => by simp [divisionTask], fun w => by simp [modulusTask], ?_⟩
  obtain ⟨h0, h1, h2⟩ := written_words (displayMenu c.world).shm kind a 0
  have hd := dispatch_addTask_granted env { c with world := displayMenu c.world } kind a 0 henv
  rcases hkind with ⟨hk, hdiag⟩ | ⟨hk, hdiag⟩
  · have hw := worker_of_task env c.taskManager
      { shm := some (written (displayMenu c.world).shm kind a 0),
        trace := (submitPrompts (displayMenu c.world)).trace } _
      (performArithmeticTask a 0 divisionTask) rfl henv.2.2.2
      (reachable_idle c hc).1 (by rw [h0, h1, h2, hk]; rfl)
    simp only [mainStep, hd]
    rw [hw]
    subst hdiag
    by_cases hst : c.taskManager.deadlockTimeout < measuredMs env.clock 0 <;>
      simp [performArithmeticTask, divisionTask, World.emit, World.print, hst, EXIT_SUCCESS]
  · have hw := worker_of_task env c.taskManager
      { shm := some (written (displayMenu c.world).shm kind a 0),
        trace := (submitPrompts (displayMenu c.world)).trace } _
      (performArithmeticTask a 0 modulusTask) rfl henv.2.2.2
      (reachable_idle c hc).1 (by rw [h0, h1, h2, hk]; rfl)
    simp only [mainStep, hd]
    rw [hw]
    subst hdiag
    by_cases hst : c.taskManager.deadlockTimeout < measuredMs env.clock 0 <;>
      simp [performArithmeticTask, modulusTask, World.emit, World.print, hst, EXIT_SUCCESS]

/-- The record `(Division, 7, 0)` on a fresh controller, the child measuring
500 ms. -/
theorem zero_divisor_reports_and_exits_zero_witness :
    mainStep ⟨true, true, true, true, fun n => 500000000 * (n : Int)⟩ (Command.addTask 4 7 0)
        (initial none) =
      Outcome.running
        { taskManager := TaskManager.new,
          world :=
            { shm := some (written none 4 7 0),
              trace := (submitPrompts (displayMenu (initial none).world)).trace ++
                [Event.sleep 2000, Event.out "Division by zero error!"] ++
                (if (1000 : Int) < measuredMs (fun n => 500000000 * (n : Int)) 0 then
                  [Event.out stallMessage] else []) },
          reaped := [Halt.exited 0] } :=
  (zero_divisor_reports_and_exits_zero ⟨true, true, true, true, fun n => 500000000 * (n : Int)⟩
    (initial none) 4 7 "Division by zero error!" (by decide) (reachable_initial none)
    (Or.inl ⟨rfl, rfl⟩)).2.2

/-- C7, amended: when the record was written and `fork` fails, the controller
writes "Fork failed." to `std::cerr` and its process exits with status
`EXIT_FAILURE`; no later turn of the loop is served. -/
theorem fork_failure_ends_controller (env : Env) (c : Controller) (kind a b : Int)
    (rest : List (Env × Command))
    (hcreate : env.createOk = true) (hattach : env.attachOk = true)
    (hfork : env.forkOk = false) :
    mainStep env (Command.addTask kind a b) c =
        Outcome.halted (Halt.exited EXIT_FAILURE)
          { shm := some (written (displayMenu c.world).shm kind a b),
            trace := (submitPrompts (displayMenu c.world)).trace ++ [Event.err "Fork failed."] } ∧
      mainLoop ((env, Command.addTask kind a b) :: rest) c =
        Outcome.halted (Halt.exited EXIT_FAILURE)
          { shm := some (written (displayMenu c.world).shm kind a b),
            trace := (submitPrompts (displayMenu c.world)).trace ++ [Event.err "Fork failed."] } := by
  have hw := writeToSharedMemory_granted kind a b (submitPrompts (displayMenu c.world))
  have hstep : mainStep env (Command.addTask kind a b) c =
      Outcome.halted (Halt.exited EXIT_FAILURE)
        { shm := some (written (displayMenu c.world).shm kind a b),
          trace := (submitPrompts (displayMenu c.world)).trace ++ [Event.err "Fork failed."] } := by
    have e : ∀ w : World, ((w.print
      "Enter task identifier (1: Addition, 2: Subtraction, 3: Multiplication, 4: Division, 5: Modulus): ").print
      "Enter the first number: ").print "Enter the second number: " = submitPrompts w :=
      fun _ => rfl
    simp only [mainStep, dispatch, hcreate, hattach, hfork, e, hw]
    rfl
  exact ⟨hstep, by simp only [mainLoop, hstep]⟩

/-- A failed `fork` on a fresh controller, with a status query typed behind it. -/
theorem fork_failure_ends_controller_witness :
    mainLoop [(⟨true, true, false, true, fun _ => 0⟩, Command.addTask 1 7 3),
        (⟨true, true, true, true, fun _ => 0⟩, Command.status)] (initial none) =
      Outcome.halted (Halt.exited 1)
        { shm := some (written none 1 7 3),
          trace := (submitPrompts (displayMenu (initial none).world)).trace ++
            [Event.err "Fork failed."] } :=
  (fork_failure_ends_controller ⟨true, true, false, true, fun _ => 0⟩ (initial none) 1 7 3
    [(⟨true, true, true, true, fun _ => 0⟩, Command.status)] rfl rfl rfl).2

/-- C7 as stated fails: on a fresh controller whose `fork` fails, the turn does
not leave a running controller. -/
theorem fork_failure_not_running :
    ¬ ∃ c1 : Controller,
      mainStep ⟨true, true, false, true, fun _ => 0⟩ (Command.addTask 1 7 3) (initial none) =
        Outcome.running c1 := by
  rintro ⟨c1, h⟩
  have hstep : mainStep ⟨true, true, false, true, fun _ => 0⟩ (Command.addTask 1 7 3)
      (initial none) =
        Outcome.halted (Halt.exited 1)
          { shm := some (written none 1 7 3),
            trace := (submitPrompts (displayMenu (initial none).world)).trace ++
              [Event.err "Fork failed."] } := rfl
  rw [hstep] at h
  cases h

/-! ## The controller's task manager -/

/-- C10: in every controller state the program can reach, the task manager has
an empty queue and `processing = false`, and the status query answers "Task
manager is idle.". At every submit of a recognised record granted by the kernel,
the child (which inherits that task manager) reads back the record, holds after
its `addTask` a queue of exactly the one closure built from the record, and is
`processTasks` on that queue followed by `exit`: it invokes that closure only,
on the world of the `fork`; the controller collects it with its own task
manager unchanged. -/
theorem controller_queue_always_empty (c : Controller) (hc : Reachable c) :
    c.taskManager.tasks = [] ∧ c.taskManager.processing = false ∧
      (∀ env : Env, mainStep env Command.status c =
        Outcome.running
          { c with world := (displayMenu c.world).print "Task manager is idle." }) ∧
      (∀ (env : Env) (kind a b : Int) (task : Task),
        env.granted → taskFor kind a b = some task →
          readFromSharedMemory env.workerAttachOk (forkWorld c.world kind a b) =
              Except.ok (kind, a, b) ∧
            workerEnqueue c.taskManager kind a b =
              some { tasks := [task], deadlockTimeout := c.taskManager.deadlockTimeout,
                     processing := false } ∧
            worker env c.taskManager (forkWorld c.world kind a b) =
              (match ({ tasks := [task], deadlockTimeout := c.taskManager.deadlockTimeout,
                        processing := false } : TaskManager).processTasks env.clock
                      (forkWorld c.world kind a b) with
                | Except.error stop => { halt := stop.1, world := stop.2, ran := [] }
                | Except.ok p =>
                  { halt := Halt.exited EXIT_SUCCESS, world := p.world, ran := p.ran }) ∧
            worker env c.taskManager (forkWorld c.world kind a b) =
              (match task (forkWorld c.world kind a b) with
                | Except.error stop => { halt := stop.1, world := stop.2, ran := [] }
                | Except.ok w2 =>
                  { halt := Halt.exited EXIT_SUCCESS,
                    world := if c.taskManager.deadlockTimeout < measuredMs env.clock 0 then
                               w2.print stallMessage
                             else w2,
                    ran := [task] }) ∧
            mainStep env (Command.addTask kind a b) c =
              Outcome.running
                { taskManager := c.taskManager,
                  world := (worker env c.taskManager (forkWorld c.world kind a b)).world,
                  reaped := c.reaped ++
                    [(worker env c.taskManager (forkWorld c.world kind a b)).halt] }) := by
  obtain ⟨hq, hp⟩ := reachable_idle c hc
  refine ⟨hq, hp, ?_, ?_⟩
  · intro env
    simp [mainStep, dispatch, TaskManager.isProcessing, hp]
  · intro env kind a b task henv ht
    obtain ⟨h0, h1, h2⟩ := written_words (displayMenu c.world).shm kind a b
    have hread : readFromSharedMemory env.workerAttachOk (forkWorld c.world kind a b) =
        Except.ok (kind, a, b) := by
      simp [readFromSharedMemory, forkWorld, henv.2.2.2, h0, h1, h2]
    have htm : c.taskManager.addTask task =
        { tasks := [task], deadlockTimeout := c.taskManager.deadlockTimeout,
          processing := false } := by
      simp [TaskManager.addTask, hq, hp]
    have henq : workerEnqueue c.taskManager kind a b =
        some { tasks := [task], deadlockTimeout := c.taskManager.deadlockTimeout,
               processing := false } := by
      simp [workerEnqueue, ht, htm]
    have hw := worker_of_task env c.taskManager (forkWorld c.world kind a b) _ task rfl
      henv.2.2.2 hq (by rw [h0, h1, h2]; exact ht)
    refine ⟨hread, henq, ?_, hw, ?_⟩
    · simp only [worker, hread, henq]
    · have hd := dispatch_addTask_granted env { c with world := displayMenu c.world }
        kind a b henv
      simp only [mainStep, hd]
      rfl

/-- The state after a timeout change, a submitted subtraction and a clearing of
the segment, and the child of a submit of `(Addition, 7, 3)` made in that state:
it runs the addition closure only. -/
theorem controller_queue_always_empty_witness :
    (∃ c : Controller,
      main none [(⟨true, true, true, true, fun _ => 0⟩, Command.setTimeout 100),
        (⟨true, true, true, true, fun n => 2000000000 * (n : Int)⟩, Command.addTask 2 9 4),
        (⟨true, true, true, true, fun _ => 0⟩, Command.clearSharedMemory)] =
          Outcome.running c ∧
        c.reaped = [Halt.exited 0] ∧ c.taskManager.deadlockTimeout = 100 ∧
        c.taskManager.tasks = [] ∧ c.taskManager.processing = false ∧
        worker ⟨true, true, true, true, fun n => 2000000000 * (n : Int)⟩ c.taskManager
            (forkWorld c.world 1 7 3) =
          { halt := Halt.exited 0,
            world := { shm := some (written none 1 7 3),
                       trace := (submitPrompts (displayMenu c.world)).trace ++
                         [Event.sleep 2000, Event.out "Addition: 7 + 3 = 10",
                          Event.out stallMessage] },
            ran := [performArithmeticTask 7 3 additionTask] }) :=
  ⟨_, rfl, rfl, rfl,
    (controller_queue_always_empty _
      ⟨none, [(⟨true, true, true, true, fun _ => 0⟩, Command.setTimeout 100),
        (⟨true, true, true, true, fun n => 2000000000 * (n : Int)⟩, Command.addTask 2 9 4),
        (⟨true, true, true, true, fun _ => 0⟩, Command.clearSharedMemory)], rfl⟩).1,
    (controller_queue_always_empty _
      ⟨none, [(⟨true, true, true, true, fun _ => 0⟩, Command.setTimeout 100),
        (⟨true, true, true, true, fun n => 2000000000 * (n : Int)⟩, Command.addTask 2 9 4),
        (⟨true, true, true, true, fun _ => 0⟩, Command.clearSharedMemory)], rfl⟩).2.1,
    ((controller_queue_always_empty _
      ⟨none, [(⟨true, true, true, true, fun _ => 0⟩, Command.setTimeout 100),
        (⟨true, true, true, true, fun n => 2000000000 * (n : Int)⟩, Command.addTask 2 9 4),
        (⟨true, true, true, true, fun _ => 0⟩, Command.clearSharedMemory)], rfl⟩).2.2.2
      ⟨true, true, true, true, fun n => 2000000000 * (n : Int)⟩ 1 7 3
      (performArithmeticTask 7 3 additionTask) (by decide) rfl).2.2.2.1⟩

end MiniOS
